import Mathlib

/-!
Verification development for the `keyword-filtering` group-moderation plugin
(`src/index.ts`).  Messages are modelled as `List Char`.  The plugin compiles
each configured forbidden-word pattern into the JavaScript regular expression
`(?<!\$CQ:\w+.*?\$CQ)\s*(pattern)` with flags `gis`, applies a global
replacement, tracks per-user violation counts, and composes alert messages.
The regex constructs actually used by the source (literal characters with the
`i` flag, character classes, greedy and lazy repetition, a negative lookbehind,
and the unanchored-`$` end assertion appearing in `/$CQ:[^$]*]/`) are embedded
below as a small backtracking matcher with explicit fuel; the fuel is chosen
large enough that it is never exhausted on the inputs considered, and every
concrete evaluation is checked by the kernel.
-/

/-- Abstract syntax for the fragment of JavaScript regular expressions used by
the source: empty, the `$` end-of-input assertion, a character class given by a
predicate, concatenation, alternation, greedy `*`, lazy `*?`, and negative
lookbehind `(?<!...)`. -/
inductive Re where
  | eps : Re
  | anchorEnd : Re
  | cls : (Char → Bool) → Re
  | cat : Re → Re → Re
  | alt : Re → Re → Re
  | star : Re → Re
  | starL : Re → Re
  | lookNeg : Re → Re

/-- Structural size of a regex, used to budget matching fuel. -/
def reSize : Re → Nat
  | .eps => 1
  | .anchorEnd => 1
  | .cls _ => 1
  | .cat a b => reSize a + reSize b + 1
  | .alt a b => reSize a + reSize b + 1
  | .star r => reSize r + 1
  | .starL r => reSize r + 1
  | .lookNeg r => reSize r + 1

/-- Backtracking matcher in continuation-passing style.  `mrun s fuel r i k`
tries to match `r` in subject `s` starting at index `i`; on success of a prefix
ending at `j` it defers to the continuation `k j`, and alternatives are tried
in the same priority order as a JavaScript engine (greedy `*` prefers to
consume, lazy `*?` prefers not to, alternation is left-first).  A negative
lookbehind succeeds at `i` exactly when no match of its body ends at `i`.
Returns the continuation value of the highest-priority overall success. -/
def mrun (s : List Char) : Nat → Re → Nat → (Nat → Option Nat) → Option Nat
  | 0, _, _, _ => none
  | Nat.succ fuel, r, i, k =>
    match r with
    | .eps => k i
    | .anchorEnd => if i = s.length then k i else none
    | .cls p =>
      match s.get? i with
      | some c => if p c then k (i + 1) else none
      | none => none
    | .cat r₁ r₂ => mrun s fuel r₁ i (fun j => mrun s fuel r₂ j k)
    | .alt r₁ r₂ =>
      (mrun s fuel r₁ i k).orElse (fun _ => mrun s fuel r₂ i k)
    | .star r₁ =>
      (mrun s fuel r₁ i
          (fun j => if i < j then mrun s fuel (.star r₁) j k else none)).orElse
        (fun _ => k i)
    | .starL r₁ =>
      (k i).orElse
        (fun _ => mrun s fuel r₁ i
          (fun j => if i < j then mrun s fuel (.starL r₁) j k else none))
    | .lookNeg r₁ =>
      if (List.range (i + 1)).any
          (fun j => (mrun s fuel r₁ j (fun e => if e = i then some e else none)).isSome)
      then none else k i

/-- Fuel budget amply covering any single match attempt of `r` in `s`. -/
def matchFuel (s : List Char) (r : Re) : Nat :=
  (s.length + 2) * (reSize r + 2) * 4

/-- Scan for the leftmost match of `r` in `s` at a start position ≥ the given
index, mirroring how a JavaScript global regex advances through the subject.
Returns the (start, end) index pair of the first match found. -/
def reFindAux (s : List Char) (r : Re) : Nat → Nat → Option (Nat × Nat)
  | 0, _ => none
  | Nat.succ n, i =>
    match mrun s (matchFuel s r) r i some with
    | some e => some (i, e)
    | none => if i < s.length then reFindAux s r n (i + 1) else none

/-- Leftmost match of `r` in `s` starting at or after `pos`. -/
def reFind (s : List Char) (r : Re) (pos : Nat) : Option (Nat × Nat) :=
  reFindAux s r (s.length + 1 - pos) pos

/-- `RegExp.prototype.test`: does the pattern match anywhere in the subject? -/
def reTest (r : Re) (s : List Char) : Bool :=
  (reFind s r 0).isSome

/-- Worker for global replacement (`String.prototype.replace` with the `g`
flag): repeatedly find the leftmost match, emit the text before it followed by
the replacement, and continue after the match (advancing one character past an
empty match, as the JavaScript algorithm does). -/
def reReplaceGo (s : List Char) (r : Re) (rep : List Char) : Nat → Nat → List Char
  | 0, pos => s.drop pos
  | Nat.succ n, pos =>
    match reFind s r pos with
    | none => s.drop pos
    | some (ms, me) =>
      ((s.drop pos).take (ms - pos)) ++ rep ++
        (if me = ms then
          match s.get? ms with
          | some c => c :: reReplaceGo s r rep n (ms + 1)
          | none => []
        else reReplaceGo s r rep n me)

/-- Global regex replacement over the whole subject. -/
def reReplaceAll (s : List Char) (r : Re) (rep : List Char) : List Char :=
  reReplaceGo s r rep (s.length + 1) 0

/-- Worker for `String.prototype.split` by a regex with no capture groups:
pieces between matches are emitted, separators are dropped, and an empty
separator match is skipped without splitting (the scan just advances), as in
the ECMAScript algorithm. -/
def reSplitGo (s : List Char) (r : Re) : Nat → Nat → Nat → List (List Char)
  | 0, pos, _ => [s.drop pos]
  | Nat.succ n, pos, search =>
    match reFind s r search with
    | none => [s.drop pos]
    | some (ms, me) =>
      if me = ms then
        if s.length < ms + 1 then [s.drop pos]
        else reSplitGo s r n pos (ms + 1)
      else ((s.drop pos).take (ms - pos)) :: reSplitGo s r n me me

/-- Split a subject around the matches of a regex. -/
def reSplit (s : List Char) (r : Re) : List (List Char) :=
  reSplitGo s r (s.length + 1) 0 0

/-- A single literal character under the `i` (ignore-case) flag. -/
def reChar (c : Char) : Re :=
  .cls (fun x => x.toLower == c.toLower)

/-- A literal string of characters, each case-insensitive. -/
def reStr (t : String) : Re :=
  t.data.foldr (fun c acc => .cat (reChar c) acc) .eps

/-- Greedy `+`: one occurrence followed by a greedy star. -/
def rePlus (r : Re) : Re :=
  .cat r (.star r)

/-- The JavaScript `\s` class (ASCII whitespace plus no-break space). -/
def isWs (c : Char) : Bool :=
  c == ' ' || c == '\t' || c == '\n' || c == '\r' ||
  c == '\x0b' || c == '\x0c' || c == '\u00A0'

/-- The JavaScript `\w` class: letters, digits and underscore. -/
def isWordChar (c : Char) : Bool :=
  c.isAlpha || c.isDigit || c == '_'

/-- The lookbehind body `\$CQ:\w+.*?\$CQ` compiled by `src/index.ts:140`.
Because the source escaped the bracket of the markup delimiter as `\\$` instead
of `\\[`, this is a literal dollar sign followed by `CQ:`, one or more word
characters, a lazy any-run (the `s` flag makes `.` match everything), and a
literal `$CQ`. -/
def cqGuard : Re :=
  .cat (reChar '$')
    (.cat (reStr "CQ:")
      (.cat (rePlus (.cls isWordChar))
        (.cat (.starL (.cls (fun _ => true)))
          (.cat (reChar '$') (reStr "CQ")))))

/-- The full matcher `(?<!\$CQ:\w+.*?\$CQ)\s*(pattern)` that `src/index.ts:140`
compiles for one configured pattern (the capture group is irrelevant to
`test`/`replace` with a plain replacement string). -/
def compileRule (pattern : Re) : Re :=
  .cat (.lookNeg cqGuard) (.cat (.star (.cls isWs)) pattern)

/-- Tail of the splitter `/$CQ:[^$]*]/g` from `src/index.ts:221` after its
leading `$`: the literal `CQ:`, a run of non-dollar characters and a closing
bracket.  The `$` of the source regex is an unescaped end-of-input assertion,
kept separate below. -/
def cqSplitTail : Re :=
  .cat (reChar 'C')
    (.cat (reChar 'Q')
      (.cat (reChar ':')
        (.cat (.star (.cls (fun c => !(c == '$')))) (reChar ']'))))

/-- The whole splitter: the end-of-input assertion followed by the tail.
Since no character can follow the end of the input, this regex never matches
any subject. -/
def cqSplitRe : Re :=
  .cat .anchorEnd cqSplitTail

/-- One configured forbidden-word rule (`BlockingWords` in `src/index.ts`). -/
structure BlockingWords where
  enable : Bool
  triggerMute : Bool
  /-- Named `recall` in the source; that word is a command keyword here. -/
  doRecall : Bool
  replace : Bool
  replaceWord : List Char

/-- The mutable locals of the rule-evaluation loop in `src/index.ts:130-152`. -/
structure FilterState where
  modifiedMessage : List Char
  needRecall : Bool
  muteCount : Nat
  hasTriggerMuteRule : Bool
  hasValidReplace : Bool
deriving DecidableEq

/-- One iteration of the rule loop (`src/index.ts:137-152`): skip disabled
rules; if the compiled regex matches the current text, globally replace each
match with the rule's replacement word (or with nothing when `replace` is
unset), accumulate the recall flag, and on a mute-triggering rule set the
per-message mute count to one. -/
def filterStep (st : FilterState) (pr : Re × BlockingWords) : FilterState :=
  if !pr.2.enable then st
  else if reTest (compileRule pr.1) st.modifiedMessage then
    { modifiedMessage :=
        reReplaceAll st.modifiedMessage (compileRule pr.1)
          (if pr.2.replace then pr.2.replaceWord else []),
      needRecall := st.needRecall || pr.2.doRecall,
      muteCount := if pr.2.triggerMute then 1 else st.muteCount,
      hasTriggerMuteRule := st.hasTriggerMuteRule || pr.2.triggerMute,
      hasValidReplace := true }
  else st

/-- The Content Filter Engine: evaluate the group's ordered pattern rules over
a normalized message, starting from the pristine locals of
`src/index.ts:130-134`. -/
def runFilter (rules : List (Re × BlockingWords)) (message : List Char) : FilterState :=
  rules.foldl filterStep
    { modifiedMessage := message, needRecall := false, muteCount := 0,
      hasTriggerMuteRule := false, hasValidReplace := false }

example :
    (runFilter [(reStr "12345",
      { enable := true, triggerMute := false, doRecall := true, replace := false,
        replaceWord := [] })] "[CQ:at,qq=12345]".data).modifiedMessage
    = "[CQ:at,qq=]".data := by decide

example :
    (runFilter
      [(rePlus (reChar 'a'),
        { enable := true, triggerMute := false, doRecall := false, replace := true,
          replaceWord := "X".data }),
       (reStr "X",
        { enable := true, triggerMute := false, doRecall := true, replace := false,
          replaceWord := [] })] "aaa".data).modifiedMessage = [] := by decide

example :
    (runFilter [(reStr "bar",
      { enable := true, triggerMute := false, doRecall := false, replace := false,
        replaceWord := [] })] "foo bar".data).modifiedMessage = "foo".data := by decide

/-- Replace every ampersand by `&amp;`, the `parts[i].replace(/&/g, '&amp;')`
step of `src/index.ts:226`. -/
def escAmp : List Char → List Char
  | [] => []
  | c :: cs => if c == '&' then '&' :: 'a' :: 'm' :: 'p' :: ';' :: escAmp cs else c :: escAmp cs

/-- Interleaved reassembly of `src/index.ts:224-228`: even-indexed parts get
their ampersands escaped, odd-indexed parts are kept verbatim. -/
def escapeJoin : Nat → List (List Char) → List Char
  | _, [] => []
  | i, p :: ps => (if i % 2 == 0 then escAmp p else p) ++ escapeJoin (i + 1) ps

/-- The corrected-text escaping step of `src/index.ts:220-228`: split the text
by `/$CQ:[^$]*]/g` and escape ampersands in the even-indexed pieces. -/
def escapeForSend (s : List Char) : List Char :=
  escapeJoin 0 (reSplit s cqSplitRe)

/-- Mute-duration rendering from `src/index.ts:183-188`: whole hours by floor
division, remaining minutes rounded up, each unit omitted when zero. -/
def durationText (totalSeconds : Nat) : List Char :=
  (if totalSeconds / 3600 > 0 then (toString (totalSeconds / 3600)).data ++ "小时".data else []) ++
  (if (totalSeconds % 3600 + 59) / 60 > 0 then
    (toString ((totalSeconds % 3600 + 59) / 60)).data ++ "分钟".data else [])

/-- Per-group mute policy (`muteConfig` in `src/index.ts`). -/
structure MuteConfig where
  enable : Bool
  threshold : Nat
  duration : Nat

/-- The message-related fields of one group's configuration (`GroupRule` in
`src/index.ts`; the `correctPrefix` field is called `correctPfx` here). -/
structure GroupRule where
  muteConfig : MuteConfig
  customMessage : List Char
  alertContent : List Char
  correctPfx : List Char

/-- Outcomes of the fallible external bot calls: `setGroupBan` and the
mute-branch `sendGroupMsg` (`deleteMsg` failures are swallowed inline by
`.catch` and never alter control flow). -/
structure ExtOutcomes where
  banOk : Bool
  sendMuteOk : Bool

/-- Observable outcome of handling one message: the violation record left in
the map for the sender's key, whether its decay timer was cancelled, the texts
passed to `sendGroupMsg` in the mute and non-mute branches, and whether a
recall was attempted. -/
structure HandleOut where
  recordAfter : Option Nat
  timerCancelled : Bool
  muteSendAttempt : Option (List Char)
  nonMuteSendAttempt : Option (List Char)
  recallAttempted : Bool
deriving DecidableEq

/-- New value of `record.count` after `record.count += muteCount`
(`src/index.ts:170`); a missing record is created with count zero. -/
def newCountOf (fr : FilterState) (recordBefore : Option Nat) : Nat :=
  recordBefore.getD 0 + fr.muteCount

/-- The record stored in the map after the tracker block (`src/index.ts:155-171`)
ran: updated when the mute policy is enabled and a mute-triggering rule
matched, untouched otherwise. -/
def record1Of (cfg : GroupRule) (fr : FilterState) (recordBefore : Option Nat) : Option Nat :=
  if cfg.muteConfig.enable && fr.hasTriggerMuteRule then some (newCountOf fr recordBefore)
  else recordBefore

/-- `shouldMute` as computed by `src/index.ts:154-171`: only a qualifying
message under an enabled mute policy compares the updated count against the
threshold. -/
def shouldMuteOf (cfg : GroupRule) (fr : FilterState) (recordBefore : Option Nat) : Bool :=
  (cfg.muteConfig.enable && fr.hasTriggerMuteRule) &&
    decide (cfg.muteConfig.threshold ≤ newCountOf fr recordBefore)

/-- The mute-branch alert text of `src/index.ts:194-197`: mention, alert
content, the optional correction part (`src/index.ts:190-192`, untruncated and
unescaped), and the escalation summary with the rendered mute duration. -/
def muteAlertText (cfg : GroupRule) (userId : List Char) (message : List Char)
    (fr : FilterState) (count : Nat) : List Char :=
  "[CQ:at,qq=".data ++ userId ++ "] ".data ++ cfg.alertContent ++ "\n".data ++
  (if fr.hasValidReplace && !(fr.modifiedMessage == message) then
    cfg.correctPfx ++ fr.modifiedMessage ++ "\n".data
  else []) ++
  "因累计违规 ".data ++ (toString count).data ++ "/".data ++
  (toString cfg.muteConfig.threshold).data ++ " 次，已被禁言 ".data ++
  durationText cfg.muteConfig.duration

/-- The non-mute alert text of `src/index.ts:216-239` before the final 4500
cut: optional quoted-reply token, mention and alert content, the optional
correction block (escaped corrected text cut to 2000), then either the running
escalation summary or the custom message. -/
def nonMuteText (cfg : GroupRule) (userId : List Char) (quoteId : Option (List Char))
    (message : List Char) (fr : FilterState) (recordCount : Nat) : List Char :=
  (match quoteId with
   | some q => "[CQ:reply,id=".data ++ q ++ "]".data
   | none => []) ++
  "[CQ:at,qq=".data ++ userId ++ "] ".data ++ cfg.alertContent ++ "\n".data ++
  (if fr.hasValidReplace && !(fr.modifiedMessage == message) then
    cfg.correctPfx ++ (escapeForSend fr.modifiedMessage).take 2000 ++ "\n".data
  else []) ++
  (if fr.hasTriggerMuteRule && cfg.muteConfig.enable then
    "累计违规 ".data ++ (toString recordCount).data ++ "/".data ++
    (toString cfg.muteConfig.threshold).data ++ " 次后禁言！".data
  else if !(cfg.customMessage == []) then cfg.customMessage else [])

/-- The per-message orchestration of `src/index.ts:154-245` after the filter
loop ran, parameterised by the outcomes of the fallible external calls.  In
the mute branch the whole `try` block aborts at the first throw: a failed
`setGroupBan` skips the send and the record cleanup, a failed `sendGroupMsg`
skips the cleanup; only after a successful send are the decay timer cancelled
and the record deleted (`src/index.ts:200-201`).  The non-mute branch runs
only when the message changed or a recall is due, and never when `shouldMute`
is set; its outgoing text is cut to 4500 characters (`src/index.ts:241`). -/
def handleAfterFilter (cfg : GroupRule) (userId : List Char) (quoteId : Option (List Char))
    (message : List Char) (fr : FilterState) (recordBefore : Option Nat)
    (ext : ExtOutcomes) : HandleOut :=
  if shouldMuteOf cfg fr recordBefore then
    if ext.banOk then
      if ext.sendMuteOk then
        { recordAfter := none, timerCancelled := true,
          muteSendAttempt :=
            some (muteAlertText cfg userId message fr (newCountOf fr recordBefore)),
          nonMuteSendAttempt := none, recallAttempted := fr.needRecall }
      else
        { recordAfter := record1Of cfg fr recordBefore, timerCancelled := false,
          muteSendAttempt :=
            some (muteAlertText cfg userId message fr (newCountOf fr recordBefore)),
          nonMuteSendAttempt := none, recallAttempted := fr.needRecall }
    else
      { recordAfter := record1Of cfg fr recordBefore, timerCancelled := false,
        muteSendAttempt := none, nonMuteSendAttempt := none,
        recallAttempted := fr.needRecall }
  else
    if !(fr.modifiedMessage == message) || fr.needRecall then
      { recordAfter := record1Of cfg fr recordBefore, timerCancelled := false,
        muteSendAttempt := none,
        nonMuteSendAttempt :=
          some ((nonMuteText cfg userId quoteId message fr
            ((record1Of cfg fr recordBefore).getD 0)).take 4500),
        recallAttempted := fr.needRecall }
    else
      { recordAfter := record1Of cfg fr recordBefore, timerCancelled := false,
        muteSendAttempt := none, nonMuteSendAttempt := none,
        recallAttempted := false }

/-- The Violation Tracker update for one qualifying message
(`src/index.ts:156-171`): create a missing record with count zero, add the
per-message mute count, and compare against the threshold.  Returns the new
count, the `shouldMute` decision, and the stored record. -/
def register (recordBefore : Option Nat) (muteCount : Nat) (threshold : Nat) :
    Nat × Bool × Option Nat :=
  let c := recordBefore.getD 0 + muteCount
  (c, decide (threshold ≤ c), some c)

/-- `clearTimeout` plus map deletion (`src/index.ts:200-201`): the record for
the key is gone afterwards. -/
def clearRecord (_ : Option Nat) : Option Nat := none

/-- The record stored after `n` consecutive qualifying registrations (each
adding a mute count of one) against a fixed threshold, starting from no
record. -/
def registerN (threshold : Nat) : Nat → Option Nat
  | 0 => none
  | n + 1 => (register (registerN threshold n) 1 threshold).2.2

/-- Unfolding: matching a concatenation sequences the two parts. -/
lemma mrun_cat (s : List Char) (a b : Re) (n i : Nat) (k : Nat → Option Nat) :
    mrun s (n + 1) (.cat a b) i k = mrun s n a i (fun j => mrun s n b j k) := rfl

/-- Unfolding: the end assertion succeeds only at the end of the subject. -/
lemma mrun_anchor (s : List Char) (n i : Nat) (k : Nat → Option Nat) :
    mrun s (n + 1) .anchorEnd i k = if i = s.length then k i else none := rfl

/-- Unfolding: a character class consumes one matching character. -/
lemma mrun_cls (s : List Char) (p : Char → Bool) (n i : Nat) (k : Nat → Option Nat) :
    mrun s (n + 1) (.cls p) i k =
      (match s.get? i with
        | some c => if p c then k (i + 1) else none
        | none => none) := rfl

/-- A literal character can never match at or past the end of the subject. -/
lemma mrun_reChar_pastEnd (s : List Char) (c : Char) (n i : Nat)
    (k : Nat → Option Nat) (h : s.length ≤ i) : mrun s n (reChar c) i k = none := by
  match n with
  | 0 => rfl
  | m + 1 =>
    simp only [reChar]
    rw [mrun_cls, List.get?_len_le h]

/-- The splitter tail starts with a literal character, so it cannot match at
the end of the subject. -/
lemma mrun_cqSplitTail_pastEnd (s : List Char) (n i : Nat)
    (k : Nat → Option Nat) (h : s.length ≤ i) : mrun s n cqSplitTail i k = none := by
  match n with
  | 0 => rfl
  | m + 1 =>
    simp only [cqSplitTail]
    rw [mrun_cat]
    exact mrun_reChar_pastEnd s 'C' m i _ h

/-- The splitter regex `/$CQ:[^$]*]/` never matches: its leading `$` forces
the match position to the end of the input, where the following literal `C`
cannot be found. -/
lemma mrun_cqSplitRe_none (s : List Char) (fuel i : Nat) (k : Nat → Option Nat) :
    mrun s fuel cqSplitRe i k = none := by
  match fuel with
  | 0 => rfl
  | n + 1 =>
    simp only [cqSplitRe]
    rw [mrun_cat]
    match n with
    | 0 => rfl
    | m + 1 =>
      rw [mrun_anchor]
      by_cases h : i = s.length
      · rw [if_pos h]
        exact mrun_cqSplitTail_pastEnd s (m + 1) i _ (le_of_eq h.symm)
      · exact if_neg h

/-- Unfolding: one step of the leftmost-match scan. -/
lemma reFindAux_succ (s : List Char) (r : Re) (n i : Nat) :
    reFindAux s r (n + 1) i =
      (match mrun s (matchFuel s r) r i some with
        | some e => some (i, e)
        | none => if i < s.length then reFindAux s r n (i + 1) else none) := rfl

/-- The splitter regex is never found anywhere in any subject. -/
lemma reFindAux_cqSplitRe_none (s : List Char) :
    ∀ (b i : Nat), reFindAux s cqSplitRe b i = none := by
  intro b
  induction b with
  | zero => intro i; rfl
  | succ n ih =>
    intro i
    rw [reFindAux_succ, mrun_cqSplitRe_none]
    rw [ih]
    exact ite_self none

/-- `reFind` never locates the splitter regex. -/
lemma reFind_cqSplitRe_none (s : List Char) (pos : Nat) :
    reFind s cqSplitRe pos = none := by
  unfold reFind
  exact reFindAux_cqSplitRe_none s _ pos

/-- Unfolding: one step of the splitter loop. -/
lemma reSplitGo_succ (s : List Char) (r : Re) (n pos search : Nat) :
    reSplitGo s r (n + 1) pos search =
      (match reFind s r search with
        | none => [s.drop pos]
        | some (ms, me) =>
          if me = ms then
            if s.length < ms + 1 then [s.drop pos]
            else reSplitGo s r n pos (ms + 1)
          else ((s.drop pos).take (ms - pos)) :: reSplitGo s r n me me) := rfl

/-- Splitting any text by `/$CQ:[^$]*]/g` returns the whole text as the single
piece: the bogus delimiter never matches. -/
lemma reSplit_cqSplitRe (s : List Char) : reSplit s cqSplitRe = [s] := by
  unfold reSplit
  rw [reSplitGo_succ, reFind_cqSplitRe_none]
  simp

/-- Consequently the escaping step of `src/index.ts:220-228` escapes
ampersands in the entire corrected text, markup tokens included. -/
lemma escapeForSend_eq_escAmp (s : List Char) : escapeForSend s = escAmp s := by
  unfold escapeForSend
  rw [reSplit_cqSplitRe]
  simp [escapeJoin]

/-- Loop invariant of the rule loop: `muteCount` is one exactly when some
mute-triggering rule has matched, zero otherwise (the source assigns
`muteCount = 1` rather than incrementing, `src/index.ts:149`). -/
lemma foldl_filterStep_muteCount (l : List (Re × BlockingWords)) :
    ∀ st : FilterState,
      st.muteCount = (if st.hasTriggerMuteRule then 1 else 0) →
      (l.foldl filterStep st).muteCount =
        if (l.foldl filterStep st).hasTriggerMuteRule then 1 else 0 := by
  induction l with
  | nil => intro st h; simpa using h
  | cons pr l ih =>
    intro st h
    rw [List.foldl_cons]
    apply ih
    unfold filterStep
    by_cases h1 : pr.2.enable
    · by_cases h2 : reTest (compileRule pr.1) st.modifiedMessage
      · by_cases htr : pr.2.triggerMute <;> simp [h1, h2, htr, h]
      · simp [h1, h2, h]
    · simp [h1, h]

/-- The Content Filter Engine always reports a per-message mute count of one
when any mute-triggering rule matched, and zero otherwise. -/
lemma runFilter_muteCount (rules : List (Re × BlockingWords)) (message : List Char) :
    (runFilter rules message).muteCount =
      if (runFilter rules message).hasTriggerMuteRule then 1 else 0 := by
  unfold runFilter
  exact foldl_filterStep_muteCount rules _ rfl

/-- The count stored after `n` consecutive qualifying registrations is `n`. -/
lemma registerN_getD (threshold n : Nat) : (registerN threshold n).getD 0 = n := by
  induction n with
  | zero => rfl
  | succ m ih => simp [registerN, register, ih]

/-- A rule that merely triggers a mute, with every other action disabled. -/
def trigRule : BlockingWords :=
  { enable := true, triggerMute := true, doRecall := false, replace := false,
    replaceWord := [] }

/-- Filter outcome of the one-character message `x` against a single enabled
mute-triggering rule for the pattern `x`: the text is emptied, the mute flag
is set and the mute count is one. -/
def frTrig : FilterState := runFilter [(reStr "x", trigRule)] "x".data

/-- A group configuration with the mute policy enabled at threshold one. -/
def cfgT1 : GroupRule :=
  { muteConfig := { enable := true, threshold := 1, duration := 600 },
    customMessage := "请遵守群规！".data,
    alertContent := "检测到违规内容！".data,
    correctPfx := "修正内容：".data }

example : frTrig.hasTriggerMuteRule = true ∧ frTrig.muteCount = 1 ∧
    frTrig.hasValidReplace = true ∧ frTrig.modifiedMessage = [] := by decide

/-- Claim C1. Claimed: a pattern occurring only inside a markup token's
attribute value (pattern `12345` against `[CQ:at,qq=12345]`) is not treated as
matched, the text stays unchanged and no recall flag is set.  The code behaves
otherwise: its containment lookbehind guards against a literal `$CQ` (the
bracket of `[CQ:` was escaped as `\$` in `src/index.ts:140`), so the rule
matches inside the token, deletes the digits and sets the recall flag. -/
theorem c1_code_matches_inside_markup_token :
    runFilter [(reStr "12345",
      { enable := true, triggerMute := false, doRecall := true, replace := false,
        replaceWord := [] })] "[CQ:at,qq=12345]".data
    = { modifiedMessage := "[CQ:at,qq=]".data, needRecall := true, muteCount := 0,
        hasTriggerMuteRule := false, hasValidReplace := true } := by decide

/-- The two overlapping rules of the order-dependence example: `R1` rewrites
`a+` to `X`, then `R2` matches `X` with the recall action and `replace`
unset. -/
def c2rules : List (Re × BlockingWords) :=
  [(rePlus (reChar 'a'),
    { enable := true, triggerMute := false, doRecall := false, replace := true,
      replaceWord := "X".data }),
   (reStr "X",
    { enable := true, triggerMute := false, doRecall := true, replace := false,
      replaceWord := [] })]

/-- Claim C2, counterexample. Claimed: input `aaa` yields modified text `X`.  In
the code a matching rule with `replace` unset replaces its matches with the
empty string (`src/index.ts:143`), so `R2` deletes the `X` produced by `R1`
and the final text is empty, not `X`. -/
theorem c2_overlap_claim_false :
    (runFilter c2rules "aaa".data).modifiedMessage ≠ "X".data := by decide

/-- Claim C2, amended. Applying `R1` then `R2` to `aaa` deterministically yields
the empty modified text (`R1` rewrites `aaa` to `X`, `R2` then deletes the
`X`) with `recallRequested = true`. -/
theorem c2_overlap_amended :
    (runFilter c2rules "aaa".data).modifiedMessage = [] ∧
    (runFilter c2rules "aaa".data).needRecall = true := by decide

/-- Claim C3. Claimed: the escaping step leaves markup tokens intact, escaping
`&` only outside them.  The code splits by `/$CQ:[^$]*]/g` (`src/index.ts:221`),
whose unescaped leading `[` became an end-of-input assertion, so the splitter
never matches, the whole corrected text is one even-indexed segment, and `&`
is escaped everywhere — a token such as `[CQ:image,file=a&b]` is emitted
modified. -/
theorem c3_escape_rewrites_inside_tokens :
    (∀ s : List Char, escapeForSend s = escAmp s) ∧
    escapeForSend "[CQ:image,file=a&b]".data = "[CQ:image,file=a&amp;b]".data := by
  refine ⟨escapeForSend_eq_escAmp, ?_⟩
  decide

/-- Claim C10. The compiled matcher `\s*(pattern)` makes a replacement consume
the whitespace immediately preceding each occurrence: `foo bar` with pattern
`bar` and `replace` unset becomes `foo`, not `foo `; runs of blanks and tabs
are swallowed likewise. -/
theorem c10_leading_whitespace_consumed :
    (runFilter [(reStr "bar",
      { enable := true, triggerMute := false, doRecall := false, replace := false,
        replaceWord := [] })] "foo bar".data).modifiedMessage = "foo".data ∧
    (runFilter [(reStr "bar",
      { enable := true, triggerMute := false, doRecall := false, replace := false,
        replaceWord := [] })] "foo  bar".data).modifiedMessage = "foo".data ∧
    (runFilter [(reStr "bar",
      { enable := true, triggerMute := false, doRecall := false, replace := false,
        replaceWord := [] })] "foo\tbar".data).modifiedMessage = "foo".data ∧
    (runFilter [(reStr "bar",
      { enable := true, triggerMute := false, doRecall := false, replace := false,
        replaceWord := [] })] "foo bar".data).modifiedMessage ≠ "foo ".data := by
  refine ⟨by decide, by decide, by decide, by decide⟩

/-- Claim C5. Mute-duration formatting: hours are the floor of `seconds / 3600`,
minutes are the ceiling of the remaining seconds over sixty (witnessed by the
two bounds on `60 * minutes`), a unit is omitted when zero and both zero
renders the empty string; `3661` seconds render one hour unit and one minute
unit (`1小时2分钟`, the sixty-one remaining seconds rounding up to two
minutes) and `60` seconds render only the minute unit. -/
theorem c5_duration_formatting :
    (∀ s : Nat, durationText s =
      (if s / 3600 > 0 then (toString (s / 3600)).data ++ "小时".data else []) ++
      (if (s % 3600 + 59) / 60 > 0 then
        (toString ((s % 3600 + 59) / 60)).data ++ "分钟".data else [])) ∧
    (∀ s : Nat, s % 3600 ≤ 60 * ((s % 3600 + 59) / 60) ∧
      60 * ((s % 3600 + 59) / 60) < s % 3600 + 60) ∧
    durationText 3661 = "1小时2分钟".data ∧
    durationText 60 = "1分钟".data ∧
    durationText 3600 = "1小时".data ∧
    durationText 0 = [] := by
  refine ⟨fun s => rfl, fun s => ⟨?_, ?_⟩, by decide, by decide, by decide, by decide⟩ <;>
    omega

/-- Claim C8. Starting from no record, the `(N+1)`-th consecutive qualifying
registration against threshold three yields count `N + 1` and decides a mute
exactly when that count reaches three; after a clear, the next registration
yields count one again, not four. -/
theorem c8_register_counts (N : Nat) :
    (register (registerN 3 N) 1 3).1 = N + 1 ∧
    ((register (registerN 3 N) 1 3).2.1 = true ↔ 3 ≤ N + 1) ∧
    (register (clearRecord (registerN 3 N)) 1 3).1 = 1 := by
  refine ⟨?_, ?_, rfl⟩
  · simp [register, registerN_getD]
  · simp [register, registerN_getD, decide_eq_true_eq]

/-- Claim C9. Whenever at least one mute-triggering rule matched a message, the
filter's per-message mute count is exactly one (the loop assigns one, it never
accumulates across rules), so the tracker's addition raises the stored count
by exactly one. -/
theorem c9_single_increment (rules : List (Re × BlockingWords)) (message : List Char)
    (recordBefore : Option Nat) (threshold : Nat)
    (h : (runFilter rules message).hasTriggerMuteRule = true) :
    (runFilter rules message).muteCount = 1 ∧
    (register recordBefore (runFilter rules message).muteCount threshold).1
      = recordBefore.getD 0 + 1 := by
  have hm := runFilter_muteCount rules message
  rw [h] at hm
  simp only [if_true] at hm
  exact ⟨hm, by simp [register, hm]⟩

/-- Two distinct mute-triggering rules that both match the message `a b`. -/
def c9rules : List (Re × BlockingWords) :=
  [(reStr "a", trigRule), (reStr "b", trigRule)]

example : (runFilter c9rules "a b".data).modifiedMessage = [] ∧
    (runFilter c9rules "a b".data).hasTriggerMuteRule = true := by decide

/-- Witness for `c9_single_increment` at a message matched by two distinct
mute-triggering rules. -/
theorem c9_single_increment_witness :
    (runFilter c9rules "a b".data).muteCount = 1 ∧
    (register none (runFilter c9rules "a b".data).muteCount 3).1
      = (none : Option Nat).getD 0 + 1 :=
  c9_single_increment c9rules "a b".data none 3 (by decide)

/-- Handling outcome when the threshold is crossed, the ban succeeds, but the
mute-branch alert send throws. -/
def c6out : HandleOut :=
  handleAfterFilter cfgT1 "10001".data none "x".data frTrig none
    { banOk := true, sendMuteOk := false }

/-- Claim C6, counterexample. Claimed: on `shouldMute` the record is removed and
its decay timer cancelled regardless of whether the external send succeeds.
When `sendGroupMsg` throws, the `catch` of `src/index.ts:202` is reached
before the cleanup of lines 200-201 ran: the record survives with its
incremented count and the timer stays pending. -/
theorem c6_clear_requires_send_success_cex :
    c6out.recordAfter = some 1 ∧ c6out.timerCancelled = false := by decide

/-- Claim C6, amended. On a threshold-crossing message the record is removed and
its decay timer cancelled exactly when both the mute action and the subsequent
alert send succeed; if either of them throws, the record remains in the map
with its incremented count and the timer keeps running. -/
theorem c6_clear_amended (cfg : GroupRule) (userId : List Char)
    (quoteId : Option (List Char)) (message : List Char) (fr : FilterState)
    (recordBefore : Option Nat) (ext : ExtOutcomes)
    (h1 : cfg.muteConfig.enable = true) (h2 : fr.hasTriggerMuteRule = true)
    (h3 : cfg.muteConfig.threshold ≤ newCountOf fr recordBefore) :
    (ext.banOk = true → ext.sendMuteOk = true →
      (handleAfterFilter cfg userId quoteId message fr recordBefore ext).recordAfter = none ∧
      (handleAfterFilter cfg userId quoteId message fr recordBefore ext).timerCancelled = true) ∧
    (ext.banOk = false ∨ ext.sendMuteOk = false →
      (handleAfterFilter cfg userId quoteId message fr recordBefore ext).recordAfter
        = some (newCountOf fr recordBefore) ∧
      (handleAfterFilter cfg userId quoteId message fr recordBefore ext).timerCancelled
        = false) := by
  have hsm : shouldMuteOf cfg fr recordBefore = true := by
    simp [shouldMuteOf, h1, h2, h3]
  have hr1 : record1Of cfg fr recordBefore = some (newCountOf fr recordBefore) := by
    simp [record1Of, h1, h2]
  constructor
  · intro hb hs
    simp [handleAfterFilter, hsm, hb, hs]
  · intro hor
    rcases hor with hb | hs
    · simp [handleAfterFilter, hsm, hb, hr1]
    · cases hb : ext.banOk <;> simp [handleAfterFilter, hsm, hb, hs, hr1]

/-- Witness for `c6_clear_amended`: with ban and send both succeeding the
record is gone and the timer cancelled. -/
theorem c6_clear_amended_witness :
    (handleAfterFilter cfgT1 "10001".data none "x".data frTrig none
      { banOk := true, sendMuteOk := true }).recordAfter = none ∧
    (handleAfterFilter cfgT1 "10001".data none "x".data frTrig none
      { banOk := true, sendMuteOk := true }).timerCancelled = true :=
  (c6_clear_amended cfgT1 "10001".data none "x".data frTrig none
    { banOk := true, sendMuteOk := true } (by decide) (by decide) (by decide)).1 rfl rfl

/-- Claim C7. If the threshold is crossed and `setGroupBan` throws, handling
jumps to the `catch` of `src/index.ts:202`: the mute-branch alert is never
passed to `sendGroupMsg`, and the non-mute branch is skipped as well because
`shouldMute` is set, so no alert of any kind is sent for that message. -/
theorem c7_mute_failure_no_alert (cfg : GroupRule) (userId : List Char)
    (quoteId : Option (List Char)) (message : List Char) (fr : FilterState)
    (recordBefore : Option Nat) (ext : ExtOutcomes)
    (h1 : cfg.muteConfig.enable = true) (h2 : fr.hasTriggerMuteRule = true)
    (h3 : cfg.muteConfig.threshold ≤ newCountOf fr recordBefore)
    (h4 : ext.banOk = false) :
    (handleAfterFilter cfg userId quoteId message fr recordBefore ext).muteSendAttempt
      = none ∧
    (handleAfterFilter cfg userId quoteId message fr recordBefore ext).nonMuteSendAttempt
      = none := by
  have hsm : shouldMuteOf cfg fr recordBefore = true := by
    simp [shouldMuteOf, h1, h2, h3]
  simp [handleAfterFilter, hsm, h4]

/-- Witness for `c7_mute_failure_no_alert` at a concrete threshold-crossing
message whose ban call fails. -/
theorem c7_mute_failure_no_alert_witness :
    (handleAfterFilter cfgT1 "10001".data none "x".data frTrig none
      { banOk := false, sendMuteOk := true }).muteSendAttempt = none ∧
    (handleAfterFilter cfgT1 "10001".data none "x".data frTrig none
      { banOk := false, sendMuteOk := true }).nonMuteSendAttempt = none :=
  c7_mute_failure_no_alert cfgT1 "10001".data none "x".data frTrig none
    { banOk := false, sendMuteOk := true } (by decide) (by decide) (by decide) rfl

/-- Claim C4, amended. Truncation applies only in the non-mute branch: its
outgoing text is exactly the composed text cut to its first 4500 characters
(hence never longer than 4500; the escaped correction text inside it was cut
to 2000 before embedding, `src/index.ts:229,241`), while the mute-branch alert
is passed to the send call in full, with no truncation of the text or of its
correction part (`src/index.ts:194-198`). -/
theorem c4_truncation_amended (cfg : GroupRule) (userId : List Char)
    (quoteId : Option (List Char)) (message : List Char) (fr : FilterState)
    (recordBefore : Option Nat) (ext : ExtOutcomes) (t : List Char) :
    ((handleAfterFilter cfg userId quoteId message fr recordBefore ext).nonMuteSendAttempt
        = some t →
      t = (nonMuteText cfg userId quoteId message fr
            ((record1Of cfg fr recordBefore).getD 0)).take 4500 ∧
      t.length ≤ 4500) ∧
    ((handleAfterFilter cfg userId quoteId message fr recordBefore ext).muteSendAttempt
        = some t →
      t = muteAlertText cfg userId message fr (newCountOf fr recordBefore)) := by
  by_cases hsm : shouldMuteOf cfg fr recordBefore
  · by_cases hb : ext.banOk
    · by_cases hs : ext.sendMuteOk
      · constructor
        · intro h; simp [handleAfterFilter, hsm, hb, hs] at h
        · intro h
          simp only [handleAfterFilter, hsm, hb, hs, if_true, Option.some.injEq] at h
          exact h.symm
      · constructor
        · intro h; simp [handleAfterFilter, hsm, hb, hs] at h
        · intro h
          simp only [handleAfterFilter, hsm, hb, hs, if_true, Bool.false_eq_true,
            if_false, Option.some.injEq] at h
          exact h.symm
    · constructor
      · intro h; simp [handleAfterFilter, hsm, hb] at h
      · intro h; simp [handleAfterFilter, hsm, hb] at h
  · by_cases hc : (!(fr.modifiedMessage == message) || fr.needRecall) = true
    · constructor
      · intro h
        simp only [handleAfterFilter, hsm, hc, Bool.false_eq_true, if_false, if_true,
          Option.some.injEq] at h
        refine ⟨h.symm, ?_⟩
        rw [← h]
        rw [List.length_take]
        exact Nat.min_le_left _ _
      · intro h; simp [handleAfterFilter, hsm, hc] at h
    · constructor
      · intro h; simp [handleAfterFilter, hsm, hc] at h
      · intro h; simp [handleAfterFilter, hsm, hc] at h

/-- A group configuration whose alert text alone exceeds the 4500-character
cut, with the mute policy enabled at threshold one. -/
def cfgBig : GroupRule :=
  { muteConfig := { enable := true, threshold := 1, duration := 60 },
    customMessage := [], alertContent := List.replicate 4600 'a', correctPfx := [] }

/-- Handling outcome for a mute-triggering message under `cfgBig` with both
external calls succeeding. -/
def c4out : HandleOut :=
  handleAfterFilter cfgBig "10001".data none "x".data frTrig none
    { banOk := true, sendMuteOk := true }

/-- Claim C4, counterexample. Claimed: in both branches an outgoing text longer
than 4500 characters is cut to exactly its first 4500 characters.  In the mute
branch the composed alert is passed to the send call untruncated: here it is
longer than 4500 characters and differs from its own 4500-character cut. -/
theorem c4_mute_branch_untruncated_cex :
    4500 < (c4out.muteSendAttempt.getD []).length ∧
    c4out.muteSendAttempt.getD [] ≠ (c4out.muteSendAttempt.getD []).take 4500 := by
  have hsome : c4out.muteSendAttempt
      = some (muteAlertText cfgBig ("10001".data) ("x".data) frTrig
          (newCountOf frTrig none)) := rfl
  have hc : (frTrig.hasValidReplace && !(frTrig.modifiedMessage == "x".data)) = true := by
    decide
  have hlen : 4500 < (muteAlertText cfgBig ("10001".data) ("x".data) frTrig
      (newCountOf frTrig none)).length := by
    simp only [muteAlertText, cfgBig, hc, if_true, List.length_append, List.length_replicate]
    omega
  rw [hsome, Option.getD_some]
  refine ⟨hlen, fun heq => ?_⟩
  have hl2 := congrArg List.length heq
  rw [List.length_take] at hl2
  omega

/-- A group configuration with the mute policy disabled, exercising the
non-mute branch. -/
def cfgNM : GroupRule :=
  { muteConfig := { enable := false, threshold := 3, duration := 600 },
    customMessage := "请遵守群规！".data, alertContent := "Warning!".data,
    correctPfx := "Fixed: ".data }

/-- Filter outcome of `this is spam` against a single replacing rule for the
pattern `spam`. -/
def frSpam : FilterState :=
  runFilter [(reStr "spam",
    { enable := true, triggerMute := false, doRecall := false, replace := true,
      replaceWord := "***".data })] "this is spam".data

/-- Witness for `c4_truncation_amended`: a concrete non-mute send honours the
4500 bound, and a concrete mute-branch send is the full composed alert. -/
theorem c4_truncation_amended_witness :
    ((nonMuteText cfgNM "10001".data none "this is spam".data frSpam
        ((record1Of cfgNM frSpam none).getD 0)).take 4500
      = (nonMuteText cfgNM "10001".data none "this is spam".data frSpam
          ((record1Of cfgNM frSpam none).getD 0)).take 4500 ∧
     ((nonMuteText cfgNM "10001".data none "this is spam".data frSpam
        ((record1Of cfgNM frSpam none).getD 0)).take 4500).length ≤ 4500) ∧
    muteAlertText cfgT1 "10001".data "x".data frTrig (newCountOf frTrig none)
      = muteAlertText cfgT1 "10001".data "x".data frTrig (newCountOf frTrig none) :=
  ⟨(c4_truncation_amended cfgNM "10001".data none "this is spam".data frSpam none
      { banOk := true, sendMuteOk := true } _).1 (by decide),
   (c4_truncation_amended cfgT1 "10001".data none "x".data frTrig none
      { banOk := true, sendMuteOk := true } _).2 (by decide)⟩
